/-
Verification of the interrupt-driven preemptive scheduling core
(Theseus early kernel): run-queue scheduler, trap-table setup,
interrupt-controller acknowledge, timer tick accounting, per-core
TSS/GDT privilege state.

Shallow embedding: each Rust function of the repository that the claims
touch is translated into an executable Lean definition.  Machine
integers are modelled as Nat with explicit `% 2^w` where wraparound can
occur; Rust panics are modelled as explicit error constructors; the
mutable statics (RUNQUEUE, TICKS, the TSS map, the IDT) are passed as
explicit state.
-/
import Mathlib

set_option linter.unusedVariables false
set_option linter.unnecessarySeqFocus false
set_option maxRecDepth 8192

namespace Theseus

/-! ## Scheduler / RunQueue
    from kernel/nano_core/src/task/scheduler.rs

    A `TaskRef` in the source is `Arc<RwLock<Task>>`; identity of tasks
    is `Arc::ptr_eq`, i.e. identity of the shared handle.  We model a
    task as a handle (a `Nat`, standing for the Arc pointer) together
    with the value of its runnability predicate `is_runnable()` at the
    time the scheduler reads it. -/

structure Task where
  handle   : Nat
  runnable : Bool
  deriving DecidableEq, Repr

/-- `RunQueue` is `VecDeque<TaskRef>`: an ordered sequence of task refs. -/
abbrev RunQueue : Type := List Task

/-- `add_task_to_runqueue(task)`: `RUNQUEUE.write().push_back(task)` —
    appends at the back, unconditionally (no membership check). -/
def add_task_to_runqueue (task : Task) (q : RunQueue) : RunQueue :=
  q ++ [task]

/-- `remove_task_from_runqueue(task)`:
    `RUNQUEUE.write().retain(|x| Arc::ptr_eq(&x, &task))`.
    `retain` KEEPS the elements for which the predicate is true, so this
    keeps exactly the entries whose handle equals `task`'s handle and
    discards every other entry. -/
def remove_task_from_runqueue (task : Task) (q : RunQueue) : RunQueue :=
  q.filter (fun x => x.handle == task.handle)

/-- The scan in `select_next_task`: `for i in 0..len { if q[i].is_runnable
    { index_chosen = Some(i); break } }` — index of the first entry whose
    runnability predicate is true. -/
def firstRunnableIdx : RunQueue → Option Nat
  | [] => none
  | t :: ts =>
      if t.runnable then some 0
      else (firstRunnableIdx ts).map (· + 1)

/-- `select_next_task`: find the first runnable entry; if found, remove
    it from its position and push it at the back, returning it; else
    return `None` and leave the queue unchanged.  Result: (chosen task,
    queue after the call). -/
def select_next_task (q : RunQueue) : Option Task × RunQueue :=
  match firstRunnableIdx q with
  | none => (none, q)
  | some i =>
      match q[i]? with
      | none => (none, q)   -- unreachable: the index comes from the scan
      | some chosen => (some chosen, q.eraseIdx i ++ [chosen])

/-- `schedule()`: run `select_next_task` on the queue; if no task was
    selected, report no switch.  Otherwise compare the selected task's
    handle with the currently running task's handle (`Arc` pointer
    comparison in the source); if equal, report no switch; otherwise the
    context switch is performed and a switch is reported.
    `current` is the handle of the task `get_tasklist().get_current()`
    returns.  Result: (switch performed?, queue after the call). -/
def schedule (current : Nat) (q : RunQueue) : Bool × RunQueue :=
  match select_next_task q with
  | (none, q') => (false, q')
  | (some chosen, q') =>
      if chosen.handle = current then (false, q') else (true, q')

end Theseus

namespace Theseus

/-- C1: the run queue [A(runnable), B(blocked), C(runnable)]:
    `select_next_task` chooses A and rotates the queue to [B, C, A];
    `schedule` reports a switch iff the current task is not A. -/
theorem schedule_abc (a b c : Task) (current : Nat)
    (ha : a.runnable = true) (hb : b.runnable = false)
    (hc : c.runnable = true) :
    select_next_task [a, b, c] = (some a, [b, c, a]) ∧
    (schedule current [a, b, c]).2 = [b, c, a] ∧
    ((schedule current [a, b, c]).1 = true ↔ current ≠ a.handle) := by
  have hsel : select_next_task [a, b, c] = (some a, [b, c, a]) := by
    simp [select_next_task, firstRunnableIdx, ha, List.get?, List.eraseIdx]
  refine ⟨hsel, ?_, ?_⟩
  · rw [schedule, hsel]
    by_cases h : a.handle = current <;> simp [h]
  · rw [schedule, hsel]
    by_cases h : a.handle = current <;> simp [h] <;> omega

/-- Witness for C1 at a concrete instance. -/
theorem schedule_abc_witness :
    select_next_task [⟨1, true⟩, ⟨2, false⟩, ⟨3, true⟩] =
      (some ⟨1, true⟩, [⟨2, false⟩, ⟨3, true⟩, ⟨1, true⟩]) ∧
    (schedule 2 [⟨1, true⟩, ⟨2, false⟩, ⟨3, true⟩]).2 =
      [⟨2, false⟩, ⟨3, true⟩, ⟨1, true⟩] ∧
    ((schedule 2 [⟨1, true⟩, ⟨2, false⟩, ⟨3, true⟩]).1 = true ↔ (2 : Nat) ≠ 1) :=
  schedule_abc ⟨1, true⟩ ⟨2, false⟩ ⟨3, true⟩ 2 rfl rfl rfl

/-- C2, evaluation at the failing input: `remove_task_from_runqueue` for
    a task NOT in the queue empties the queue (the `retain` predicate is
    not negated, so it keeps only matching entries), and for a task that
    IS in the queue it discards every other entry instead of the task. -/
theorem remove_absent_task_empties_queue :
    remove_task_from_runqueue ⟨3, true⟩ [⟨1, true⟩, ⟨2, false⟩] = ([] : RunQueue) ∧
    remove_task_from_runqueue ⟨1, true⟩ [⟨1, true⟩, ⟨2, false⟩] = ([⟨1, true⟩] : RunQueue) := by
  constructor <;> rfl

/-- Helper: removing the element at index `i` and putting it back in
    front yields a permutation of the original list. -/
theorem cons_eraseIdx_perm {α : Type} (q : List α) (i : Nat) (t : α)
    (h : q[i]? = some t) : (t :: q.eraseIdx i).Perm q := by
  induction q generalizing i with
  | nil => simp at h
  | cons x xs ih =>
      cases i with
      | zero =>
          rw [List.getElem?_cons_zero] at h
          injection h with h
          subst h
          simp [List.eraseIdx]
      | succ i =>
          rw [List.getElem?_cons_succ] at h
          have hp := ih i h
          have hswap : (t :: x :: xs.eraseIdx i).Perm (x :: t :: xs.eraseIdx i) :=
            List.Perm.swap x t _
          exact hswap.trans (List.Perm.cons x hp)

/-- C9 amended: `add_task_to_runqueue` appends at the back with no
    membership check, so adding a task whose handle is already present
    yields a queue containing that task at least twice; the invariant is
    a caller obligation, not enforced by `add`.  `select_next_task` does
    preserve the multiset of queue entries (it only rotates). -/
theorem add_task_no_dedup (t : Task) (q : RunQueue) (h : t ∈ q) :
    2 ≤ (add_task_to_runqueue t q).count t ∧
    ((select_next_task q).2).Perm q := by
  constructor
  · have h1 : 0 < q.count t := List.count_pos_iff.mpr h
    have h2 : (q ++ [t]).count t = q.count t + 1 := by
      simp [List.count_append]
    rw [add_task_to_runqueue, h2]
    omega
  · unfold select_next_task
    cases hfi : firstRunnableIdx q with
    | none => simp
    | some i =>
        simp only
        cases hg : q[i]? with
        | none => simp
        | some chosen =>
            simp only
            exact (List.perm_append_singleton chosen _).trans
              (cons_eraseIdx_perm q i chosen hg)

/-- Witness for C9's amended theorem at a concrete instance. -/
theorem add_task_no_dedup_witness :
    2 ≤ (add_task_to_runqueue ⟨1, true⟩ [⟨1, true⟩]).count ⟨1, true⟩ ∧
    ((select_next_task [⟨1, true⟩]).2).Perm [⟨1, true⟩] :=
  add_task_no_dedup ⟨1, true⟩ [⟨1, true⟩] (by simp)

/-- C9 counterexample: starting from the empty queue, adding the same
    task handle twice yields a queue with two entries for that handle,
    refuting "add never introduces a second entry for a handle already
    present". -/
theorem add_task_duplicate_cex :
    (add_task_to_runqueue ⟨1, true⟩
        (add_task_to_runqueue ⟨1, true⟩ ([] : RunQueue))).count ⟨1, true⟩ = 2 := by
  rfl

/-! ## Interrupt controller abstraction
    from kernel/nano_core/src/interrupts/mod.rs

    `INTERRUPT_CHIP` is a process-wide tagged value; `eoi(irq)` matches
    on it.  The `PIC` static is a `Once<ChainedPics>`; we model whether
    it has been initialized as a Bool, and a Rust panic (`expect`) as an
    explicit `panicked` result carrying the panic message. -/

inductive InterruptChip
  | APIC
  | x2apic
  | PIC
  deriving DecidableEq, Repr

/-- The externally observable acknowledge action `eoi` performs. -/
inductive EoiAction
  /-- APIC mode: volatile write of 0 to the local APIC EOI register
      (APIC_START + 0xB0). -/
  | apicWrite
  /-- x2apic mode: wrmsr(0x80b, 0). -/
  | x2apicWrite
  /-- PIC mode: notify_end_of_interrupt(irq) on the chained PICs. -/
  | picNotify (irq : Nat)
  deriving DecidableEq, Repr

inductive EoiResult
  | acked (action : EoiAction)
  | panicked (msg : String)
  deriving DecidableEq, Repr

/-- `eoi(irq: Option<u8>)`: match on INTERRUPT_CHIP.  APIC and x2apic
    write their fixed EOI register and never read `irq`.  PIC first
    unwraps the `PIC` static with `expect` (panics when uninitialized),
    then unwraps `irq` with `expect` of the message "PIC eoi no arg
    provided" — a panic, not an error return, when no IRQ argument was
    supplied. -/
def eoi (chip : InterruptChip) (picInitialized : Bool) (irq : Option Nat) :
    EoiResult :=
  match chip with
  | .APIC => .acked .apicWrite
  | .x2apic => .acked .x2apicWrite
  | .PIC =>
      if picInitialized then
        match irq with
        | some i => .acked (.picNotify i)
        | none => .panicked "PIC eoi no arg provided"
      else
        .panicked "IRQ 0x20: PIC not initialized"

/-- The master/slave in-service and request registers returned by
    `pic.read_isr_irr()`.  Values are u8. -/
structure IrqRegs where
  master_isr : Nat
  master_irr : Nat
  slave_isr  : Nat
  slave_irr  : Nat
  deriving DecidableEq, Repr

/-- `spurious_interrupt_handler` (kernel/nano_core version, vector 0x27):
    if the PIC is initialized, read the ISR/IRR registers; when bit 7 of
    the master ISR is set (`irq_regs.master_isr & 0x80 == 0x80`) it was a
    real IRQ7 and exactly one `eoi(Some(0x27))` is sent; otherwise no EOI
    is sent.  When the PIC static is uninitialized, only an error is
    logged and no EOI is sent.  The result is the log of `eoi` calls made
    (their `irq` arguments). -/
def spurious_interrupt_handler (pic : Option IrqRegs) : List (Option Nat) :=
  match pic with
  | some irq_regs =>
      if irq_regs.master_isr &&& 0x80 == 0x80 then
        [some 0x27]
      else
        []
  | none => []

/-- C3 counterexample: with the controller mode Legacy (PIC), the PIC
    initialized, and no IRQ argument, `eoi` panics with the message
    "PIC eoi no arg provided" — it does not return a recoverable error. -/
theorem eoi_pic_none_panics_cex :
    eoi .PIC true none = .panicked "PIC eoi no arg provided" := by
  rfl

/-- C3 amended: under legacy (PIC) mode with no IRQ argument supplied,
    `eoi` panics (treating it as a caller programming error) rather than
    returning a recoverable error; under APIC and x2apic modes the IRQ
    argument is ignored and the acknowledge always succeeds. -/
theorem eoi_mode_behaviour (picInitialized : Bool) (irq irq' : Option Nat) :
    (∃ msg, eoi .PIC picInitialized none = .panicked msg) ∧
    eoi .APIC picInitialized irq = .acked .apicWrite ∧
    eoi .APIC picInitialized irq = eoi .APIC picInitialized irq' ∧
    eoi .x2apic picInitialized irq = .acked .x2apicWrite ∧
    eoi .x2apic picInitialized irq = eoi .x2apic picInitialized irq' := by
  refine ⟨?_, rfl, rfl, rfl, rfl⟩
  cases picInitialized
  · exact ⟨"IRQ 0x20: PIC not initialized", rfl⟩
  · exact ⟨"PIC eoi no arg provided", rfl⟩

/-- C6: the legacy spurious-interrupt handler consults the master PIC's
    in-service register: if bit 7 (the spurious vector 0x27's in-service
    bit) is clear, it sends no acknowledge at all; if the bit is set, it
    sends exactly one acknowledge, for IRQ 0x27. -/
theorem spurious_handler_isr_gated (irq_regs : IrqRegs) :
    (irq_regs.master_isr &&& 0x80 ≠ 0x80 →
        spurious_interrupt_handler (some irq_regs) = []) ∧
    (irq_regs.master_isr &&& 0x80 = 0x80 →
        spurious_interrupt_handler (some irq_regs) = [some 0x27]) := by
  constructor
  · intro h
    simp [spurious_interrupt_handler, h]
  · intro h
    simp [spurious_interrupt_handler, h]

/-- Witness for C6: ISR with bit 7 clear → no EOI; ISR with bit 7 set →
    exactly the one EOI for 0x27. -/
theorem spurious_handler_isr_gated_witness :
    spurious_interrupt_handler (some ⟨0x01, 0, 0, 0⟩) = [] ∧
    spurious_interrupt_handler (some ⟨0x80, 0, 0, 0⟩) = [some 0x27] :=
  ⟨(spurious_handler_isr_gated ⟨0x01, 0, 0, 0⟩).1 (by decide),
   (spurious_handler_isr_gated ⟨0x80, 0, 0, 0⟩).2 (by decide)⟩

/-! ## Timer & tick accounting
    from src/src/interrupts/pit_clock.rs (PIT tick handler, `init`) and
    kernel/nano_core/src/interrupts/mod.rs (`apic_timer_handler`).

    `TICKS` and `APIC_TIMER_TICKS` are u64/usize counters; we model them
    as Nat with explicit wraparound `% 2^64`. -/

def U64_MOD : Nat := 2 ^ 64

/-- `PIT_FREQUENCY_HZ = 100` (pit_clock.rs). -/
def PIT_FREQUENCY_HZ : Nat := 100
/-- `timeslice_period_ms = 100` (pit_clock.rs). -/
def timeslice_period_ms : Nat := 100
/-- `heartbeat_period_ms = 10000` (pit_clock.rs). -/
def heartbeat_period_ms : Nat := 10000

/-- `pit_clock::handle_timer_interrupt()`: increments TICKS by 1, then
    invokes `schedule!()` when
    `ticks % (timeslice_period_ms * PIT_FREQUENCY_HZ / 1000) == 0`,
    and logs a heartbeat when
    `ticks % (heartbeat_period_ms * PIT_FREQUENCY_HZ / 1000) == 0`.
    Result: (new TICKS value, scheduler invoked?, heartbeat logged?). -/
def handle_timer_interrupt (ticks : Nat) : Nat × Bool × Bool :=
  let t := (ticks + 1) % U64_MOD
  (t,
   t % (timeslice_period_ms * PIT_FREQUENCY_HZ / 1000) == 0,
   t % (heartbeat_period_ms * PIT_FREQUENCY_HZ / 1000) == 0)

/-- `apic_timer_handler` tick accounting: increments APIC_TIMER_TICKS by
    1, then (after `eoi(None)`) invokes `schedule!()` unconditionally on
    every delivery.  Result: (new counter value, scheduler invoked?). -/
def apic_timer_tick (ticks : Nat) : Nat × Bool :=
  ((ticks + 1) % U64_MOD, true)

/-- Number of scheduler invocations that `handle_timer_interrupt`
    performs over `n` consecutive timer-vector deliveries starting from
    counter value `ticks`. -/
def countSchedules : Nat → Nat → Nat
  | 0, _ => 0
  | n + 1, ticks =>
      let r := handle_timer_interrupt ticks
      (if r.2.1 then 1 else 0) + countSchedules n r.1

/-- C4 counterexample: on the very first APIC timer delivery (counter
    0 → 1) the handler invokes the scheduler although the new tick count
    1 is not divisible by timeslice_period_ms * tick_frequency_hz / 1000
    = 10: the APIC timer handler schedules on every tick, refuting the
    "if and only if divisible" claim for timer-vector deliveries. -/
theorem apic_timer_every_tick_cex :
    (apic_timer_tick 0).2 = true ∧ (apic_timer_tick 0).1 = 1 ∧
    (1 : Nat) % (timeslice_period_ms * PIT_FREQUENCY_HZ / 1000) ≠ 0 := by
  refine ⟨rfl, ?_, by decide⟩
  show (0 + 1) % U64_MOD = 1
  norm_num [U64_MOD]

/-- Helper: closed form for the number of scheduler invocations across
    `n` ticks — the number of multiples of 10 in the interval
    (ticks, ticks + n]. -/
theorem countSchedules_eq (n : Nat) : ∀ ticks, ticks + n < U64_MOD →
    countSchedules n ticks = (ticks + n) / 10 - ticks / 10 := by
  induction n with
  | zero =>
      intro ticks h
      simp [countSchedules]
  | succ n ih =>
      intro ticks h
      have h1 : ticks + 1 < U64_MOD := by omega
      have hmod : (ticks + 1) % U64_MOD = ticks + 1 := Nat.mod_eq_of_lt h1
      have hr : countSchedules (n + 1) ticks =
          (if (ticks + 1) % 10 = 0 then 1 else 0) + countSchedules n (ticks + 1) := by
        simp [countSchedules, handle_timer_interrupt, hmod,
              timeslice_period_ms, PIT_FREQUENCY_HZ]
      rw [hr, ih (ticks + 1) (by omega)]
      split <;> omega

/-- C4 amended: the PIT tick handler increments the counter by exactly 1
    and invokes the scheduler iff the new count is divisible by
    timeslice_period_ms * PIT_FREQUENCY_HZ / 1000 = 10 — in particular
    exactly 100 invocations across 1000 consecutive ticks from counter 0
    — while the APIC timer handler increments its counter by 1 but
    invokes the scheduler unconditionally on every delivery. -/
theorem pit_tick_schedule_every_ten (ticks : Nat) (h : ticks + 1 < U64_MOD) :
    (handle_timer_interrupt ticks).1 = ticks + 1 ∧
    ((handle_timer_interrupt ticks).2.1 = true ↔ (ticks + 1) % 10 = 0) ∧
    countSchedules 1000 0 = 100 ∧
    (∀ t, (apic_timer_tick t).2 = true) := by
  have hmod : (ticks + 1) % U64_MOD = ticks + 1 := Nat.mod_eq_of_lt h
  refine ⟨?_, ?_, ?_, fun t => rfl⟩
  · simp [handle_timer_interrupt, hmod]
  · simp [handle_timer_interrupt, hmod, timeslice_period_ms, PIT_FREQUENCY_HZ]
  · rw [countSchedules_eq 1000 0 (by norm_num [U64_MOD])]

/-- Witness for C4's amended theorem at counter value 9 (the tenth
    tick): the new count is 10 and the scheduler is invoked. -/
theorem pit_tick_schedule_every_ten_witness :
    9 + 1 < U64_MOD ∧
    (handle_timer_interrupt 9).1 = 10 ∧
    ((handle_timer_interrupt 9).2.1 = true ↔ (10 : Nat) % 10 = 0) ∧
    countSchedules 1000 0 = 100 :=
  have h : 9 + 1 < U64_MOD := by norm_num [U64_MOD]
  ⟨h, (pit_tick_schedule_every_ten 9 h).1,
      (pit_tick_schedule_every_ten 9 h).2.1,
      (pit_tick_schedule_every_ten 9 h).2.2.1⟩

/-- One observable step of a timer-vector handler, in program order. -/
inductive HandlerEvent
  | tickIncrement
  | ack (irq : Option Nat)
  | schedulerCall
  deriving DecidableEq, Repr

/-- `apic_timer_handler` as its sequence of actions: increment
    APIC_TIMER_TICKS, then `eoi(None)`, then `schedule!()` (the comment
    in the source: the interrupt must be acknowledged first because the
    context switch may not return). -/
def apic_timer_handler_trace : List HandlerEvent :=
  [.tickIncrement, .ack none, .schedulerCall]

/-- The early single-core `timer_handler` (src/src/interrupts/mod.rs):
    `PIC.notify_end_of_interrupt(0x20)` first, then
    `pit_clock::handle_timer_interrupt()`, which increments TICKS and
    invokes `schedule!()` when the new count is a timeslice boundary. -/
def timer_handler_trace (ticks : Nat) : List HandlerEvent :=
  [.ack (some 0x20), .tickIncrement] ++
    (if (handle_timer_interrupt ticks).2.1 then [.schedulerCall] else [])

/-- C7: in both timer-vector handlers, every scheduler invocation is
    preceded (strictly earlier in program order) by a controller
    acknowledge, so a non-returning context switch cannot skip the
    acknowledge. -/
theorem timer_ack_before_schedule (ticks : Nat) :
    (∀ j : Nat,
        (timer_handler_trace ticks)[j]? = some HandlerEvent.schedulerCall →
        ∃ i : Nat, i < j ∧ ∃ irq,
          (timer_handler_trace ticks)[i]? = some (HandlerEvent.ack irq)) ∧
    (∀ j : Nat,
        apic_timer_handler_trace[j]? = some HandlerEvent.schedulerCall →
        ∃ i : Nat, i < j ∧ ∃ irq,
          apic_timer_handler_trace[i]? = some (HandlerEvent.ack irq)) := by
  constructor
  · intro j hj
    have h0 : (timer_handler_trace ticks)[0]? =
        some (HandlerEvent.ack (some 0x20)) := by
      unfold timer_handler_trace
      cases (handle_timer_interrupt ticks).2.1 <;> rfl
    refine ⟨0, ?_, some 0x20, h0⟩
    rcases Nat.eq_zero_or_pos j with hz | hp
    · rw [hz, h0] at hj
      simp at hj
    · exact hp
  · intro j hj
    cases j with
    | zero => simp [apic_timer_handler_trace] at hj
    | succ j =>
        cases j with
        | zero => simp [apic_timer_handler_trace] at hj
        | succ j =>
            cases j with
            | zero => exact ⟨1, by omega, none, rfl⟩
            | succ j => simp [apic_timer_handler_trace] at hj

/-- Witness for C7 at counter value 9 (a tick on which the PIT handler
    does invoke the scheduler, at trace position 2). -/
theorem timer_ack_before_schedule_witness :
    (timer_handler_trace 9)[2]? = some HandlerEvent.schedulerCall ∧
    (∃ i, i < 2 ∧ ∃ irq, (timer_handler_trace 9)[i]? =
        some (HandlerEvent.ack irq)) :=
  have h : (timer_handler_trace 9)[2]? = some HandlerEvent.schedulerCall := by
    rfl
  ⟨h, (timer_ack_before_schedule 9).1 2 h⟩

/-! ## PIT initialization, from src/src/interrupts/pit_clock.rs `init` -/

inductive PitPanic
  /-- Rust division by zero: `PIT_DIVIDEND_HZ / freq_hertz` with
      `freq_hertz = 0`. -/
  | divideByZero
  /-- `panic!("The chosen PIT frequency ... too small ...")` when the
      divisor exceeds `u16::max_value()`. -/
  | freqTooSmall
  deriving DecidableEq, Repr

inductive PitPortWrite
  /-- write to the command register, port 0x43 -/
  | command (value : Nat)
  /-- write to channel 0, port 0x40 -/
  | channel0 (value : Nat)
  deriving DecidableEq, Repr

/-- `pit_clock::init(freq_hertz)`: first computes
    `divisor = PIT_DIVIDEND_HZ / freq_hertz` (u32 division — Rust panics
    on `freq_hertz = 0`, before any port write), then writes command
    byte 0x36 to port 0x43, then panics if `divisor > u16::max_value()`
    (so this check happens after the command write), then writes the
    divisor's low byte and high byte to channel 0.
    Result: (port writes performed, panic if one occurred). -/
def pit_init (freq_hertz : Nat) : List PitPortWrite × Option PitPanic :=
  if freq_hertz = 0 then
    ([], some .divideByZero)
  else
    let divisor := 1193182 / freq_hertz
    if divisor > 65535 then
      ([.command 0x36], some .freqTooSmall)
    else
      ([.command 0x36, .channel0 (divisor % 256),
        .channel0 ((divisor >>> 8) % 256)], none)

/-- C10 counterexample: `pit_clock::init(0)` hits the division by zero
    before any port write — in particular the command byte 0x36 has NOT
    been written when the panic occurs, refuting the claim that the
    division by zero occurs only after the command byte was written. -/
theorem pit_init_zero_before_write_cex :
    pit_init 0 = ([], some .divideByZero) ∧
    PitPortWrite.command 0x36 ∉ (pit_init 0).1 := by
  constructor
  · rfl
  · intro h
    simp [pit_init] at h

/-- C10 amended: `pit_clock::init` is not total — it panics with a
    division by zero when `freq_hertz = 0` (before any port write), and
    panics on the divisor-width check when `1 ≤ freq_hertz ≤ 18` (after
    the command byte 0x36 has been written); for `freq_hertz ≥ 19` it
    completes without panicking. -/
theorem pit_init_panics (freq : Nat) :
    (freq = 0 → pit_init freq = ([], some .divideByZero)) ∧
    (1 ≤ freq → freq ≤ 18 →
        pit_init freq = ([.command 0x36], some .freqTooSmall)) ∧
    (19 ≤ freq →
        (pit_init freq).2 = none ∧
        (pit_init freq).1.head? = some (.command 0x36)) := by
  refine ⟨fun h0 => by subst h0; rfl, ?_, ?_⟩
  · intro h1 h18
    have hne : freq ≠ 0 := by omega
    have hmono : 1193182 / 18 ≤ 1193182 / freq :=
      Nat.div_le_div_left h18 (by omega)
    have hbig : 1193182 / freq > 65535 := by
      have : (1193182 : Nat) / 18 = 66287 := by norm_num
      omega
    simp [pit_init, hne, hbig]
  · intro h19
    have hne : freq ≠ 0 := by omega
    have hmono : 1193182 / freq ≤ 1193182 / 19 :=
      Nat.div_le_div_left h19 (by omega)
    have hsmall : ¬ (1193182 / freq > 65535) := by
      have : (1193182 : Nat) / 19 = 62799 := by norm_num
      omega
    simp [pit_init, hne, hsmall]

/-- Witness for C10's amended theorem at frequencies 0, 18 and 19. -/
theorem pit_init_panics_witness :
    pit_init 0 = ([], some .divideByZero) ∧
    pit_init 18 = ([.command 0x36], some .freqTooSmall) ∧
    (pit_init 19).2 = none :=
  ⟨(pit_init_panics 0).1 rfl,
   (pit_init_panics 18).2.1 (by omega) (by omega),
   ((pit_init_panics 19).2.2 (by omega)).1⟩

/-! ## Trap table (IDT)
    from kernel/nano_core/src/interrupts/mod.rs: `init` and
    `init_handlers_apic`.

    The `LockedIdt::new()` / `Idt::new()` state of the x86_64 crate used
    here initializes every entry to `missing` (present bit clear), so we
    model an IDT as a partial map from vector to the installed handler:
    `none` means the vector still points at an undefined/zeroed entry. -/

inductive TrapHandler
  | divide_by_zero_handler
  | breakpoint_handler
  | invalid_opcode_handler
  | device_not_available_handler
  /-- installed with `set_stack_index(DOUBLE_FAULT_IST_INDEX)` -/
  | double_fault_handler
  | segment_not_present_handler
  | general_protection_fault_handler
  | page_fault_handler
  | apic_unimplemented_interrupt_handler
  | apic_timer_handler
  | ioapic_keyboard_handler
  | apic_spurious_interrupt_handler
  | ipi_handler
  deriving DecidableEq, Repr

abbrev Idt : Type := Nat → Option TrapHandler

/-- `Idt::new()`: every entry missing. -/
def idtNew : Idt := fun _ => none

/-- `idt[v].set_handler_fn(h)` / the named-field setters. -/
def idtSet (idt : Idt) (v : Nat) (h : TrapHandler) : Idt :=
  fun w => if w = v then some h else idt w

/-- The loop `for i in 32..255 { idt[i].set_handler_fn(...) }`: the Rust
    range `32..255` is half-open, so it binds vectors 32 ..= 254 and
    leaves 255 untouched.  `List.range' 32 223 = [32, ..., 254]`. -/
def idtFillUnimplemented (idt : Idt) : Idt :=
  (List.range' 32 223).foldl
    (fun a i => idtSet a i .apic_unimplemented_interrupt_handler) idt

/-- The IDT produced by `interrupts::init` before `IDT.load()`: the
    eight exception handlers on their architectural vectors
    (0, 3, 6, 7, 8, 11, 13, 14), then the 32..255 loop.  The other
    exception vectors (1, 2, 4, 5, 9, 10, 12, 15-31) and vector 255 are
    never written. -/
def interrupts_init_idt : Idt :=
  let idt := idtNew
  let idt := idtSet idt 0 .divide_by_zero_handler
  let idt := idtSet idt 3 .breakpoint_handler
  let idt := idtSet idt 6 .invalid_opcode_handler
  let idt := idtSet idt 7 .device_not_available_handler
  let idt := idtSet idt 8 .double_fault_handler
  let idt := idtSet idt 11 .segment_not_present_handler
  let idt := idtSet idt 13 .general_protection_fault_handler
  let idt := idtSet idt 14 .page_fault_handler
  idtFillUnimplemented idt

/-- The rebinding performed by `init_handlers_apic`: refill vectors
    32 ..= 254 with the unimplemented handler, then bind 0x20 (APIC
    timer), 0x21 (IO-APIC keyboard), the APIC spurious vector and the
    TLB-shootdown IPI vector.  The concrete values of
    `APIC_SPURIOUS_INTERRUPT_VECTOR` and `TLB_SHOOTDOWN_IPI_IRQ` live in
    the apic module, outside the analysed sources, so they are taken as
    parameters. -/
def init_handlers_apic (idt : Idt) (spurious_vec tlb_vec : Nat) : Idt :=
  let idt := idtFillUnimplemented idt
  let idt := idtSet idt 0x20 .apic_timer_handler
  let idt := idtSet idt 0x21 .ioapic_keyboard_handler
  let idt := idtSet idt spurious_vec .apic_spurious_interrupt_handler
  idtSet idt tlb_vec .ipi_handler

/-- C5 counterexample: after `init` populates the IDT and `IDT.load()`
    activates it, vector 255 is still unbound (the `for i in 32..255`
    loop excludes its upper bound), and so is exception vector 1 — the
    claim that every vector 0-255 has a bound handler is false. -/
theorem idt_vector_255_unbound_cex :
    interrupts_init_idt 255 = none ∧ interrupts_init_idt 1 = none := by
  constructor <;> rfl

/-- C5 amended: after `init`, exactly the eight installed exception
    vectors (0, 3, 6, 7, 8, 11, 13, 14) and vectors 32-254 are bound;
    the remaining exception-range vectors and vector 255 stay unbound.
    After `init_handlers_apic` rebinds entries, vector 255 is still
    unbound whenever neither the spurious vector nor the TLB-shootdown
    vector equals 255. -/
theorem idt_init_bound_vectors :
    (∀ v : Nat, v < 256 →
        ((interrupts_init_idt v).isSome ↔
          (v = 0 ∨ v = 3 ∨ v = 6 ∨ v = 7 ∨ v = 8 ∨ v = 11 ∨ v = 13 ∨
           v = 14 ∨ (32 ≤ v ∧ v ≤ 254)))) ∧
    (∀ sv tv : Nat, sv ≠ 255 → tv ≠ 255 →
        init_handlers_apic interrupts_init_idt sv tv 255 = none) := by
  constructor
  · decide
  · intro sv tv hsv htv
    have h1 : (255 : Nat) ≠ tv := Ne.symm htv
    have h2 : (255 : Nat) ≠ sv := Ne.symm hsv
    show idtSet _ tv _ 255 = none
    rw [idtSet, if_neg h1]
    show idtSet _ sv _ 255 = none
    rw [idtSet, if_neg h2]
    rfl

/-- Witness for C5's amended theorem: vector 40 is bound after `init`,
    and with spurious vector 0x2F and TLB vector 0x33 the rebound IDT
    still leaves 255 unbound. -/
theorem idt_init_bound_vectors_witness :
    ((interrupts_init_idt 40).isSome ↔
      ((40 : Nat) = 0 ∨ (40 : Nat) = 3 ∨ (40 : Nat) = 6 ∨ (40 : Nat) = 7 ∨
       (40 : Nat) = 8 ∨ (40 : Nat) = 11 ∨ (40 : Nat) = 13 ∨ (40 : Nat) = 14 ∨
       ((32 : Nat) ≤ 40 ∧ (40 : Nat) ≤ 254))) ∧
    init_handlers_apic interrupts_init_idt 0x2F 0x33 255 = none :=
  ⟨idt_init_bound_vectors.1 40 (by omega),
   idt_init_bound_vectors.2 0x2F 0x33 (by omega) (by omega)⟩

/-! ## Per-core privilege state (TSS)
    from kernel/nano_core/src/interrupts/mod.rs: `create_tss_gdt` and
    `tss_set_rsp0`.  The `TSS` static is an `AtomicMap<u8,
    TaskStateSegment>` keyed by apic id, modelled as a partial map
    passed as explicit state; `apic::get_my_apic_id()` is an external
    lookup modelled as an `Option Nat` argument. -/

/-- The fields of `x86_64::structures::tss::TaskStateSegment` that this
    subsystem touches; `TaskStateSegment::new()` zeroes them. -/
structure Tss where
  privilege_stack_table : Fin 3 → Nat
  interrupt_stack_table : Fin 7 → Nat

/-- `TaskStateSegment::new()` -/
def tssNew : Tss := ⟨fun _ => 0, fun _ => 0⟩

abbrev TssMap : Type := Nat → Option Tss

/-- The TSS part of `create_tss_gdt(apic_id, …)`: build a fresh TSS,
    set `privilege_stack_table[0]` to the privilege stack top and
    `interrupt_stack_table[DOUBLE_FAULT_IST_INDEX = 0]` to the double
    fault stack top, and insert it into the TSS map under `apic_id`. -/
def create_tss_gdt (apic_id : Nat)
    (double_fault_stack_top privilege_stack_top : Nat)
    (tss_list : TssMap) : TssMap :=
  let tss : Tss :=
    { privilege_stack_table :=
        fun i => if i = 0 then privilege_stack_top
                 else tssNew.privilege_stack_table i,
      interrupt_stack_table :=
        fun i => if i = 0 then double_fault_stack_top
                 else tssNew.interrupt_stack_table i }
  fun k => if k = apic_id then some tss else tss_list k

/-- `tss_set_rsp0(new_privilege_stack_top)`: obtain the current core's
    apic id (error if it cannot be determined), look its TSS up in the
    map (error if absent), then overwrite `privilege_stack_table[0]`.
    Both failures are returned as `Err(&str)`, never a panic. -/
def tss_set_rsp0 (my_apic_id : Option Nat) (new_privilege_stack_top : Nat)
    (tss_list : TssMap) : Except String TssMap :=
  match my_apic_id with
  | none => .error "couldn't get_my_apic_id"
  | some id =>
      match tss_list id with
      | none => .error "No TSS for the current core's apid id"
      | some tss_entry =>
          .ok (fun k =>
            if k = id then
              some { tss_entry with
                privilege_stack_table :=
                  fun i => if i = 0 then new_privilege_stack_top
                           else tss_entry.privilege_stack_table i }
            else tss_list k)

/-- C8: after `create_tss_gdt` has run for core `c`, `tss_set_rsp0` on
    that core succeeds and the map afterwards holds the newly written
    ring0-stack value in `privilege_stack_table[0]`; for a core id with
    no registered TSS, or when the apic id cannot be determined, it
    returns a lookup error (an `Err` value, not a crash). -/
theorem tss_set_rsp0_spec (m : TssMap) (c df priv v : Nat) :
    (∃ m', tss_set_rsp0 (some c) v (create_tss_gdt c df priv m) = .ok m' ∧
        (m' c).map (fun t => t.privilege_stack_table 0) = some v) ∧
    (∀ c', m c' = none →
        tss_set_rsp0 (some c') v m =
          .error "No TSS for the current core's apid id") ∧
    tss_set_rsp0 none v m = .error "couldn't get_my_apic_id" := by
  refine ⟨?_, ?_, rfl⟩
  · have hlook : create_tss_gdt c df priv m c =
        some ⟨fun i => if i = 0 then priv else tssNew.privilege_stack_table i,
              fun i => if i = 0 then df else tssNew.interrupt_stack_table i⟩ := by
      simp [create_tss_gdt]
    have hok : tss_set_rsp0 (some c) v (create_tss_gdt c df priv m) =
        .ok (fun k =>
          if k = c then
            some { privilege_stack_table := fun i =>
                     if i = 0 then v
                     else if i = 0 then priv
                     else tssNew.privilege_stack_table i,
                   interrupt_stack_table := fun i =>
                     if i = 0 then df
                     else tssNew.interrupt_stack_table i }
          else create_tss_gdt c df priv m k) := by
      unfold tss_set_rsp0
      dsimp only
      rw [hlook]
    exact ⟨_, hok, by simp⟩
  · intro c' hc'
    simp [tss_set_rsp0, hc']

/-- Witness for C8 at concrete inputs: the empty map, core 1, stacks
    2 and 3, new value 4, unregistered core 5. -/
theorem tss_set_rsp0_spec_witness :
    (∃ m', tss_set_rsp0 (some 1) 4
        (create_tss_gdt 1 2 3 (fun _ => none)) = .ok m' ∧
        (m' 1).map (fun t => t.privilege_stack_table 0) = some 4) ∧
    tss_set_rsp0 (some 5) 4 (fun _ => none) =
      .error "No TSS for the current core's apid id" :=
  ⟨(tss_set_rsp0_spec (fun _ => none) 1 2 3 4).1,
   (tss_set_rsp0_spec (fun _ => none) 1 2 3 4).2.1 5 rfl⟩

end Theseus
